import Mathlib

/-!
# Verification of the Billing Monk invoice/payment domain logic

A shallow embedding, in Lean 4, of the invoice/payment domain logic of the
`invoice-plus-plus` application, together with theorems settling the claims
of its specification.

The provided sources contain:
* `src/types/index.ts` — the domain type definitions (`Invoice`, `Payment`,
  `InvoiceStatus`, `UpdatePaymentData`, …);
* the payment `[id]` API route (`GET` / `PUT` / `DELETE` handlers);
* the invoices page, with `handleStatusChange` (the `sentDate` logic).

The invoice computation engine, the payment-application functions, the
recurring-invoice advancer, and the read-time `overdue` derivation are not
among the provided sources; those parts are modelled from the specification
(sections 4.1–4.4), and each such definition says so in its doc comment.
Monetary values are embedded as rationals (`ℚ`); dates/instants as natural
numbers compared by `≤` / `<`.
-/

/-- Invoice status enum, from `src/types/index.ts`:
`'draft' | 'sent' | 'paid' | 'overdue' | 'cancelled'`. -/
inductive InvoiceStatus where
  | draft
  | sent
  | paid
  | overdue
  | cancelled
deriving DecidableEq, Repr

/-- Payment method enum, from `src/types/index.ts`. -/
inductive PaymentMethod where
  | cash
  | check
  | creditCard
  | bankTransfer
  | paypal
  | other
deriving DecidableEq, Repr

/-! ## 4.1 Invoice computation engine (modelled from the spec) -/

/-- A line item's computation-relevant fields (`quantity`, `rate`), from the
`LineItem` interface in `src/types/index.ts` (`amount` is derived). -/
structure LineItemInput where
  quantity : ℚ
  rate : ℚ
deriving DecidableEq, Repr

/-- Modelled from the spec: the invoice computation engine (§4.1) is not in
the provided sources.  `subtotal` is the sum of `quantity × rate` per item
(`subtotal = Σ lineItem.amount`, with `amount = quantity × rate`); rationals
make the fixed-point arithmetic exact. -/
def subtotal (L : List LineItemInput) : ℚ :=
  (L.map (fun li => li.quantity * li.rate)).sum

/-- Rounding to currency precision (2 decimal places), used by the engine for
the tax amount (§4.1: `taxAmount = round(subtotal × taxRate)`). -/
def round2 (q : ℚ) : ℚ :=
  (round (q * 100) : ℚ) / 100

/-- Modelled from the spec: `taxAmount = round(subtotal × taxRate)` (§4.1). -/
def taxAmount (L : List LineItemInput) (t : ℚ) : ℚ :=
  round2 (subtotal L * t)

/-- Modelled from the spec: `total = subtotal + taxAmount` (§4.1). -/
def total (L : List LineItemInput) (t : ℚ) : ℚ :=
  subtotal L + taxAmount L t

/-! ## 4.4 Payment application (modelled from the spec) -/

/-- The payment-application view of an invoice: its `total`, the payments
(id, amount) currently referencing it, and its stored status.  The derived
`paidAmount`/`balance` are recomputed fresh from the payment set (§5). -/
structure Invoice where
  total : ℚ
  payments : List (String × ℚ)
  status : InvoiceStatus
deriving DecidableEq, Repr

/-- `paidAmount = Σ amount of Payments referencing this invoice` (§3). -/
def paidAmount (inv : Invoice) : ℚ :=
  (inv.payments.map Prod.snd).sum

/-- `balance = total − paidAmount` (§3); may be negative, never clamped. -/
def balance (inv : Invoice) : ℚ :=
  inv.total - paidAmount inv

/-- Modelled from the spec: `applyPayment` (§4.4) is not in the provided
sources.  Appends the payment and recomputes; if the recomputed balance is
≤ 0 the invoice transitions to `paid` — but a `cancelled` invoice is never
reopened or transitioned (§4.2: payment application on a cancelled invoice
recomputes the balance but leaves the status `cancelled`). -/
def applyPayment (inv : Invoice) (pid : String) (amt : ℚ) : Invoice :=
  let inv' : Invoice := { inv with payments := inv.payments ++ [(pid, amt)] }
  if inv.status ≠ InvoiceStatus.cancelled ∧ balance inv' ≤ 0 then
    { inv' with status := InvoiceStatus.paid }
  else inv'

/-- Modelled from the spec: `removePayment` (§4.4) is not in the provided
sources.  Removes the payment and recomputes; if the invoice was `paid` and
the recomputed balance is now > 0, it reverts to `sent` (a `cancelled`
invoice is never `paid`, so it is never reverted). -/
def removePayment (inv : Invoice) (pid : String) : Invoice :=
  let inv' : Invoice := { inv with payments := inv.payments.filter (fun p => p.1 ≠ pid) }
  if inv.status = InvoiceStatus.paid ∧ 0 < balance inv' then
    { inv' with status := InvoiceStatus.sent }
  else inv'

/-- Applies a list of payments in order (fresh recomputation at each step). -/
def applyAll (inv : Invoice) (ps : List (String × ℚ)) : Invoice :=
  ps.foldl (fun acc p => applyPayment acc p.1 p.2) inv

/-! ## `handleStatusChange` sent-date logic (from the source) -/

/-- The `sentDate` field of the `PUT` payload built by `handleStatusChange`
(invoices page): `newStatus === 'sent' && !invoice.sentDate ?
new Date().toISOString() : invoice.sentDate?.toISOString()`.  A `Date` object
is always truthy, so `!invoice.sentDate` is exactly "sentDate is unset". -/
def statusChangeSentDate (sentDate : Option ℕ) (newStatus : InvoiceStatus)
    (now : ℕ) : Option ℕ :=
  if newStatus = InvoiceStatus.sent ∧ sentDate = none then some now else sentDate

/-! ## 4.3 Recurring invoice advancer (modelled from the spec) -/

/-- Recurring frequency enum, from `src/types/index.ts`:
`'weekly' | 'monthly' | 'quarterly' | 'yearly'`. -/
inductive Frequency where
  | weekly
  | monthly
  | quarterly
  | yearly
deriving DecidableEq, Repr

/-- Modelled from the spec: calendar arithmetic ("interval units of
frequency", §4.3) is abstracted to a fixed positive day count per frequency
unit; the claims about the advancer depend only on the step being positive
and on the advance-from-the-last-scheduled-date loop. -/
def unitDays : Frequency → ℕ
  | Frequency.weekly => 7
  | Frequency.monthly => 30
  | Frequency.quarterly => 90
  | Frequency.yearly => 365

/-- The `RecurringSchedule` fields relevant to advancement, from
`src/types/index.ts` (dates as day numbers). -/
structure Schedule where
  frequency : Frequency
  interval : ℕ
  nextInvoiceDate : ℕ
  endDate : Option ℕ
  isActive : Bool
deriving DecidableEq, Repr

/-- One advancement step: `interval` units of `frequency` (§4.3). -/
def stepLen (s : Schedule) : ℕ :=
  s.interval * unitDays s.frequency

/-- Modelled from the spec (§4.3): the schedule is due now when
`nextInvoiceDate ≤ now AND isActive AND (no endDate OR now ≤ endDate)`. -/
def isDue (s : Schedule) (now : ℕ) : Bool :=
  s.isActive && decide (s.nextInvoiceDate ≤ now) &&
    (match s.endDate with
     | none => true
     | some e => decide (now ≤ e))

/-- Modelled from the spec (§4.3): the advanced date is computed by
repeatedly adding the step to the previous `nextInvoiceDate` — never to
`now` — until the result is in the future. -/
def catchUp (st next now : ℕ) : ℕ :=
  if _h : 0 < st ∧ next ≤ now then catchUp st (next + st) now else next
termination_by now + 1 - next
decreasing_by omega

/-- Modelled from the spec (§4.3): one advancement run.  When the schedule is
due it creates exactly one catch-up invoice (modelled by the invoice count)
and advances `nextInvoiceDate`; otherwise it does nothing. -/
def runAdvance (s : Schedule) (now : ℕ) (invoiceCount : ℕ) : ℕ × Schedule :=
  if isDue s now then
    (invoiceCount + 1, { s with nextInvoiceDate := catchUp (stepLen s) s.nextInvoiceDate now })
  else (invoiceCount, s)

/-! ## 4.2 Read-time `overdue` derivation (modelled from the spec) -/

/-- Modelled from the spec (§4.2): `overdue` "applies when current date >
dueDate and balance > 0 and status is not `cancelled`/`paid`"; the read-time
derivation is not in the provided sources. -/
def isOverdueAt (status : InvoiceStatus) (dueDate : ℕ) (bal : ℚ) (now : ℕ) : Bool :=
  decide (dueDate < now) && decide (0 < bal) &&
    !(status == InvoiceStatus.cancelled) && !(status == InvoiceStatus.paid)

/-- Modelled from the spec (§4.2): the status reported at read time is
`overdue` when the overdue condition holds, and otherwise the stored status. -/
def readStatus (status : InvoiceStatus) (dueDate : ℕ) (bal : ℚ) (now : ℕ) :
    InvoiceStatus :=
  if isOverdueAt status dueDate bal now then InvoiceStatus.overdue else status

/-! ## The payment `[id]` API route (from the source)

The `GET`/`PUT`/`DELETE` handlers are embedded as functions from the
session token, route parameter, parsed body, a fault profile for the
external spreadsheet store (any store call may throw; the handlers' `catch`
maps a throw to a generic 500 response), and the current store contents, to
the response, the resulting store, and the list of store operations
attempted.  The zod `paymentFormSchema` lives outside the provided sources,
so body validation is abstracted as the outcome of `safeParse`: the handler
receives `Option PaymentFormData` (`none` = validation failed), which is all
the handler code inspects (`result.success`). -/

namespace PaymentRoute

/-- The `Payment` record, from `src/types/index.ts`. -/
structure Payment where
  id : String
  invoiceId : String
  amount : ℚ
  paymentDate : ℕ
  paymentMethod : PaymentMethod
  notes : Option String
  createdAt : ℕ
deriving DecidableEq, Repr

/-- The `PaymentFormData` shape, from `src/types/index.ts` (the parsed,
schema-validated request body; note it includes `invoiceId`). -/
structure PaymentFormData where
  invoiceId : String
  amount : ℚ
  paymentDate : ℕ
  paymentMethod : PaymentMethod
  notes : Option String
deriving DecidableEq, Repr

/-- The payment store (the Payments sheet, as a list of rows). -/
abbrev Store := List Payment

/-- `sheetsService.getPayment(id)`. -/
def getPayment (id : String) (st : Store) : Option Payment :=
  st.find? (fun p => p.id == id)

/-- `sheetsService.deletePayment(id)`: returns whether a row was deleted,
and the resulting store. -/
def deletePayment (id : String) (st : Store) : Bool × Store :=
  match getPayment id st with
  | none => (false, st)
  | some _ => (true, st.filter (fun p => !(p.id == id)))

/-- `sheetsService.createPayment(data)`: appends a new row with a fresh id
and the current creation time, returning the created payment. -/
def createPayment (d : PaymentFormData) (freshId : String) (now : ℕ)
    (st : Store) : Payment × Store :=
  let p : Payment :=
    { id := freshId, invoiceId := d.invoiceId, amount := d.amount,
      paymentDate := d.paymentDate, paymentMethod := d.paymentMethod,
      notes := d.notes, createdAt := now }
  (p, st ++ [p])

/-- Fault profile for the external store: which of the store calls made by a
handler throws.  A throwing call performs no store mutation. -/
structure Faults where
  getFails : Bool
  deleteFails : Bool
  createFails : Bool
deriving DecidableEq, Repr

/-- The fault-free profile. -/
def noFaults : Faults := ⟨false, false, false⟩

/-- A store operation attempted by a handler (reads and writes). -/
inductive Effect where
  | readPayment (id : String)
  | deleteRow (id : String)
  | createRow
deriving DecidableEq, Repr

/-- Whether an effect is a write to the store. -/
def Effect.isWrite : Effect → Bool
  | Effect.readPayment _ => false
  | Effect.deleteRow _ => true
  | Effect.createRow => true

/-- The response envelope produced by `createSuccessResponse` /
`createErrorResponse` (success flag, error code, HTTP status, payload). -/
structure ApiResp where
  success : Bool
  code : String
  httpStatus : ℕ
  payment : Option Payment
deriving DecidableEq, Repr

/-- `createErrorResponse(code, message, status)`. -/
def errorResponse (code : String) (status : ℕ) : ApiResp :=
  ⟨false, code, status, none⟩

/-- `createSuccessResponse(data)`. -/
def successResponse (p : Option Payment) : ApiResp :=
  ⟨true, "", 200, p⟩

/-- The authentication guard `!session?.accessToken`: the session token is
present when the session exists, has an access token, and that token is not
the empty string (all falsy values are rejected). -/
def tokenPresent : Option String → Bool
  | none => false
  | some s => !(s == "")

/-- The result of running a handler: response, resulting store, and the
store operations attempted (in order). -/
abbrev HandlerResult := ApiResp × Store × List Effect

/-- The `GET` handler of the payment `[id]` route (`src/unnamed/part_000`,
lines 9–43): auth check, id check, fetch, not-found check, success. -/
def GET (token : Option String) (id : String) (f : Faults) (st : Store) :
    HandlerResult :=
  if !tokenPresent token then (errorResponse "UNAUTHORIZED" 401, st, [])
  else if id == "" then (errorResponse "VALIDATION_ERROR" 400, st, [])
  else if f.getFails then
    (errorResponse "FETCH_ERROR" 500, st, [Effect.readPayment id])
  else
    match getPayment id st with
    | none => (errorResponse "NOT_FOUND" 404, st, [Effect.readPayment id])
    | some p => (successResponse (some p), st, [Effect.readPayment id])

/-- The `PUT` handler of the payment `[id]` route (`src/unnamed/part_000`,
lines 45–112): auth check, id check, body validation, existence check, then
delete the old payment and create a new one from the validated body.  Any
store call that throws is caught and mapped to the generic
`UPDATE_ERROR` 500 response — including a `createPayment` failure after the
delete already succeeded, in which case the old payment is already gone. -/
def PUT (token : Option String) (id : String) (parsed : Option PaymentFormData)
    (f : Faults) (freshId : String) (now : ℕ) (st : Store) : HandlerResult :=
  if !tokenPresent token then (errorResponse "UNAUTHORIZED" 401, st, [])
  else if id == "" then (errorResponse "VALIDATION_ERROR" 400, st, [])
  else
    match parsed with
    | none => (errorResponse "VALIDATION_ERROR" 400, st, [])
    | some d =>
      if f.getFails then
        (errorResponse "UPDATE_ERROR" 500, st, [Effect.readPayment id])
      else
        match getPayment id st with
        | none => (errorResponse "NOT_FOUND" 404, st, [Effect.readPayment id])
        | some _ =>
          if f.deleteFails then
            (errorResponse "UPDATE_ERROR" 500, st,
              [Effect.readPayment id, Effect.deleteRow id])
          else
            let st1 := (deletePayment id st).2
            if f.createFails then
              (errorResponse "UPDATE_ERROR" 500, st1,
                [Effect.readPayment id, Effect.deleteRow id, Effect.createRow])
            else
              let pr := createPayment d freshId now st1
              (successResponse (some pr.1), pr.2,
                [Effect.readPayment id, Effect.deleteRow id, Effect.createRow])

/-- The `DELETE` handler of the payment `[id]` route (`src/unnamed/part_000`,
lines 114–148): auth check, id check, delete; a `false` return from the
store means not found. -/
def DELETE (token : Option String) (id : String) (f : Faults) (st : Store) :
    HandlerResult :=
  if !tokenPresent token then (errorResponse "UNAUTHORIZED" 401, st, [])
  else if id == "" then (errorResponse "VALIDATION_ERROR" 400, st, [])
  else if f.deleteFails then
    (errorResponse "DELETE_ERROR" 500, st, [Effect.deleteRow id])
  else
    let r := deletePayment id st
    if r.1 then (successResponse none, r.2, [Effect.deleteRow id])
    else (errorResponse "NOT_FOUND" 404, r.2, [Effect.deleteRow id])

end PaymentRoute

/-! ## Helper lemmas -/

theorem applyPayment_payments (inv : Invoice) (pid : String) (amt : ℚ) :
    (applyPayment inv pid amt).payments = inv.payments ++ [(pid, amt)] := by
  simp only [applyPayment]
  split <;> rfl

theorem applyPayment_total (inv : Invoice) (pid : String) (amt : ℚ) :
    (applyPayment inv pid amt).total = inv.total := by
  simp only [applyPayment]
  split <;> rfl

theorem applyPayment_status (inv : Invoice) (pid : String) (amt : ℚ) :
    (applyPayment inv pid amt).status = InvoiceStatus.paid ∨
      (applyPayment inv pid amt).status = inv.status := by
  simp only [applyPayment]
  split
  · exact Or.inl rfl
  · exact Or.inr rfl

theorem applyPayment_ne_cancelled (inv : Invoice) (pid : String) (amt : ℚ)
    (h : inv.status ≠ InvoiceStatus.cancelled) :
    (applyPayment inv pid amt).status ≠ InvoiceStatus.cancelled := by
  rcases applyPayment_status inv pid amt with h' | h' <;> rw [h']
  exact fun hc => InvoiceStatus.noConfusion hc
  exact h

theorem applyPayment_cancelled (inv : Invoice) (pid : String) (amt : ℚ)
    (h : inv.status = InvoiceStatus.cancelled) :
    (applyPayment inv pid amt).status = InvoiceStatus.cancelled := by
  simp only [applyPayment]
  split
  · next hc => exact absurd h hc.1
  · exact h

theorem applyAll_payments (ps : List (String × ℚ)) (inv : Invoice) :
    (applyAll inv ps).payments = inv.payments ++ ps := by
  induction ps generalizing inv with
  | nil => simp [applyAll]
  | cons p ps ih =>
    simp only [applyAll, List.foldl_cons]
    rw [show List.foldl (fun acc p => applyPayment acc p.1 p.2) (applyPayment inv p.1 p.2) ps =
        applyAll (applyPayment inv p.1 p.2) ps from rfl, ih, applyPayment_payments]
    simp

theorem applyAll_total (ps : List (String × ℚ)) (inv : Invoice) :
    (applyAll inv ps).total = inv.total := by
  induction ps generalizing inv with
  | nil => simp [applyAll]
  | cons p ps ih =>
    simp only [applyAll, List.foldl_cons]
    rw [show List.foldl (fun acc p => applyPayment acc p.1 p.2) (applyPayment inv p.1 p.2) ps =
        applyAll (applyPayment inv p.1 p.2) ps from rfl, ih, applyPayment_total]

theorem applyAll_ne_cancelled (ps : List (String × ℚ)) (inv : Invoice)
    (h : inv.status ≠ InvoiceStatus.cancelled) :
    (applyAll inv ps).status ≠ InvoiceStatus.cancelled := by
  induction ps generalizing inv with
  | nil => exact h
  | cons p ps ih =>
    simp only [applyAll, List.foldl_cons]
    exact ih (applyPayment inv p.1 p.2) (applyPayment_ne_cancelled inv p.1 p.2 h)

theorem applyAll_cancelled (ps : List (String × ℚ)) (inv : Invoice)
    (h : inv.status = InvoiceStatus.cancelled) :
    (applyAll inv ps).status = InvoiceStatus.cancelled := by
  induction ps generalizing inv with
  | nil => exact h
  | cons p ps ih =>
    simp only [applyAll, List.foldl_cons]
    exact ih (applyPayment inv p.1 p.2) (applyPayment_cancelled inv p.1 p.2 h)

theorem applyAll_concat (ps : List (String × ℚ)) (p : String × ℚ) (inv : Invoice) :
    applyAll inv (ps ++ [p]) = applyPayment (applyAll inv ps) p.1 p.2 := by
  simp [applyAll, List.foldl_append]

theorem balance_applyAll (ps : List (String × ℚ)) (inv : Invoice) :
    balance (applyAll inv ps) = inv.total - paidAmount inv - (ps.map Prod.snd).sum := by
  simp only [balance, paidAmount, applyAll_payments, applyAll_total, List.map_append,
    List.sum_append]
  ring

theorem balance_append (inv : Invoice) (pid : String) (amt : ℚ) :
    balance { inv with payments := inv.payments ++ [(pid, amt)] } =
      balance inv - amt := by
  simp [balance, paidAmount]
  ring

theorem balance_applyPayment (inv : Invoice) (pid : String) (amt : ℚ) :
    balance (applyPayment inv pid amt) = balance inv - amt := by
  simp only [balance, paidAmount, applyPayment_payments, applyPayment_total,
    List.map_append, List.sum_append]
  simp
  ring

theorem applyPayment_status_paid (inv : Invoice) (pid : String) (amt : ℚ)
    (h1 : inv.status ≠ InvoiceStatus.cancelled) (h2 : balance inv - amt ≤ 0) :
    (applyPayment inv pid amt).status = InvoiceStatus.paid := by
  simp only [applyPayment]
  rw [if_pos ⟨h1, by rw [balance_append]; exact h2⟩]

theorem removePayment_payments (inv : Invoice) (pid : String) :
    (removePayment inv pid).payments = inv.payments.filter (fun p => p.1 ≠ pid) := by
  simp only [removePayment]
  split <;> rfl

theorem removePayment_total (inv : Invoice) (pid : String) :
    (removePayment inv pid).total = inv.total := by
  simp only [removePayment]
  split <;> rfl

theorem balance_removePayment (inv : Invoice) (pid : String) :
    balance (removePayment inv pid) =
      inv.total - ((inv.payments.filter (fun p => p.1 ≠ pid)).map Prod.snd).sum := by
  simp [balance, paidAmount, removePayment_payments, removePayment_total]

theorem removePayment_revert (inv : Invoice) (pid : String)
    (hp : inv.status = InvoiceStatus.paid)
    (hb : 0 < balance (removePayment inv pid)) :
    (removePayment inv pid).status = InvoiceStatus.sent := by
  rw [balance_removePayment] at hb
  simp only [removePayment]
  rw [if_pos ⟨hp, by rw [show balance { inv with payments := inv.payments.filter (fun p => p.1 ≠ pid) } = inv.total - ((inv.payments.filter (fun p => p.1 ≠ pid)).map Prod.snd).sum from by simp [balance, paidAmount]]; exact hb⟩]

theorem removePayment_cancelled (inv : Invoice) (pid : String)
    (h : inv.status = InvoiceStatus.cancelled) :
    (removePayment inv pid).status = InvoiceStatus.cancelled := by
  simp only [removePayment]
  split
  · next hc => rw [h] at hc; exact absurd hc.1 (by decide)
  · exact h

/-! ## Claim theorems -/

/-- C1: for every line-item list `L` and tax rate `t`, the computation engine
yields `subtotal L = Σ qtyᵢ·rateᵢ`, `taxAmount = round₂(subtotal·t)` and
`total = subtotal + taxAmount`; on `[{qty:2,rate:50},{qty:1,rate:25}]` with
`t = 0.08` it yields subtotal 125, taxAmount 10, total 135; on the empty list
it yields subtotal 0 and total 0. -/
theorem C1_invoice_computation (L : List LineItemInput) (t : ℚ) :
    subtotal L = (L.map (fun li => li.quantity * li.rate)).sum ∧
    taxAmount L t = round2 (subtotal L * t) ∧
    total L t = subtotal L + taxAmount L t ∧
    subtotal [⟨2, 50⟩, ⟨1, 25⟩] = 125 ∧
    taxAmount [⟨2, 50⟩, ⟨1, 25⟩] (8/100) = 10 ∧
    total [⟨2, 50⟩, ⟨1, 25⟩] (8/100) = 135 ∧
    subtotal [] = 0 ∧
    total [] t = 0 := by
  refine ⟨rfl, rfl, rfl, by norm_num [subtotal], ?_, ?_, by norm_num [subtotal], ?_⟩
  · norm_num [taxAmount, subtotal, round2, round_eq]
  · norm_num [total, taxAmount, subtotal, round2, round_eq]
  · norm_num [total, taxAmount, subtotal, round2, round_eq]

/-- C5: in `handleStatusChange`, a status change to `sent` sets `sentDate` to
now exactly when it was previously unset; an already-set `sentDate` is never
changed by any status update; and a change to a status other than `sent`
leaves `sentDate` as it was. -/
theorem C5_sentDate_immutable (sd : Option ℕ) (ns : InvoiceStatus) (now d : ℕ) :
    (ns = InvoiceStatus.sent → sd = none →
      statusChangeSentDate sd ns now = some now) ∧
    (sd = some d → statusChangeSentDate sd ns now = some d) ∧
    (ns ≠ InvoiceStatus.sent → statusChangeSentDate sd ns now = sd) := by
  refine ⟨fun hns hsd => ?_, fun hsd => ?_, fun hns => ?_⟩
  · simp [statusChangeSentDate, hns, hsd]
  · simp [statusChangeSentDate, hsd]
  · simp [statusChangeSentDate, hns]

/-- Witness for C5 at concrete inputs: an unset `sentDate` becomes `now = 5`
on the transition to `sent`; a set `sentDate = 3` survives a transition to
`sent` unchanged. -/
theorem C5_sentDate_immutable_witness :
    statusChangeSentDate none InvoiceStatus.sent 5 = some 5 ∧
    statusChangeSentDate (some 3) InvoiceStatus.sent 5 = some 3 :=
  ⟨(C5_sentDate_immutable none InvoiceStatus.sent 5 0).1 rfl rfl,
   (C5_sentDate_immutable (some 3) InvoiceStatus.sent 5 3).2.1 rfl⟩

/-- C9: each of the payment-route handlers checks authentication before
anything else — a request with no session access token gets the
`UNAUTHORIZED` (401) response, the store is untouched, and no store
operation at all is attempted. -/
theorem C9_auth_checked_first (token : Option String) (id : String)
    (parsed : Option PaymentRoute.PaymentFormData) (f : PaymentRoute.Faults)
    (freshId : String) (now : ℕ) (st : PaymentRoute.Store)
    (h : PaymentRoute.tokenPresent token = false) :
    PaymentRoute.GET token id f st =
      (PaymentRoute.errorResponse "UNAUTHORIZED" 401, st, []) ∧
    PaymentRoute.PUT token id parsed f freshId now st =
      (PaymentRoute.errorResponse "UNAUTHORIZED" 401, st, []) ∧
    PaymentRoute.DELETE token id f st =
      (PaymentRoute.errorResponse "UNAUTHORIZED" 401, st, []) := by
  refine ⟨?_, ?_, ?_⟩ <;>
    simp [PaymentRoute.GET, PaymentRoute.PUT, PaymentRoute.DELETE, h]

/-- Witness for C9 at a concrete input: a session with no token is rejected
by all three handlers without touching a one-payment store. -/
theorem C9_auth_checked_first_witness :
    PaymentRoute.GET none "p1" PaymentRoute.noFaults [] =
      (PaymentRoute.errorResponse "UNAUTHORIZED" 401, [], []) ∧
    PaymentRoute.PUT none "p1" none PaymentRoute.noFaults "p2" 0 [] =
      (PaymentRoute.errorResponse "UNAUTHORIZED" 401, [], []) ∧
    PaymentRoute.DELETE none "p1" PaymentRoute.noFaults [] =
      (PaymentRoute.errorResponse "UNAUTHORIZED" 401, [], []) :=
  C9_auth_checked_first none "p1" none PaymentRoute.noFaults "p2" 0 [] rfl

/-- C10: the `PUT` handler mutates nothing before its checks pass — an
invalid body yields `VALIDATION_ERROR` (400) with no store operation at all,
and an unknown payment id yields `NOT_FOUND` (404) after only a read; in
both cases the store is returned unchanged. -/
theorem C10_put_checks_before_mutation (token : Option String) (id : String)
    (d : PaymentRoute.PaymentFormData) (f : PaymentRoute.Faults)
    (freshId : String) (now : ℕ) (st : PaymentRoute.Store)
    (htok : PaymentRoute.tokenPresent token = true) (hid : id ≠ "") :
    PaymentRoute.PUT token id none f freshId now st =
      (PaymentRoute.errorResponse "VALIDATION_ERROR" 400, st, []) ∧
    (f.getFails = false → PaymentRoute.getPayment id st = none →
      PaymentRoute.PUT token id (some d) f freshId now st =
        (PaymentRoute.errorResponse "NOT_FOUND" 404, st,
          [PaymentRoute.Effect.readPayment id])) := by
  constructor
  · simp [PaymentRoute.PUT, htok, hid]
  · intro hget hnone
    simp [PaymentRoute.PUT, htok, hid, hget, hnone]

/-- Witness for C10 at concrete inputs: with a valid session, an invalid
body against a one-payment store, and a valid body naming an absent id,
both leave the store as it was. -/
theorem C10_put_checks_before_mutation_witness :
    PaymentRoute.PUT (some "tok") "p9" none PaymentRoute.noFaults "f" 0
        [⟨"p1", "inv1", 50, 1, PaymentMethod.cash, none, 0⟩] =
      (PaymentRoute.errorResponse "VALIDATION_ERROR" 400,
        [⟨"p1", "inv1", 50, 1, PaymentMethod.cash, none, 0⟩], []) ∧
    PaymentRoute.PUT (some "tok") "p9"
        (some ⟨"inv1", 60, 2, PaymentMethod.cash, none⟩) PaymentRoute.noFaults "f" 0
        [⟨"p1", "inv1", 50, 1, PaymentMethod.cash, none, 0⟩] =
      (PaymentRoute.errorResponse "NOT_FOUND" 404,
        [⟨"p1", "inv1", 50, 1, PaymentMethod.cash, none, 0⟩],
        [PaymentRoute.Effect.readPayment "p9"]) :=
  ⟨(C10_put_checks_before_mutation (some "tok") "p9"
      ⟨"inv1", 60, 2, PaymentMethod.cash, none⟩ PaymentRoute.noFaults "f" 0
      [⟨"p1", "inv1", 50, 1, PaymentMethod.cash, none, 0⟩] rfl (by simp)).1,
   (C10_put_checks_before_mutation (some "tok") "p9"
      ⟨"inv1", 60, 2, PaymentMethod.cash, none⟩ PaymentRoute.noFaults "f" 0
      [⟨"p1", "inv1", 50, 1, PaymentMethod.cash, none, 0⟩] rfl (by simp)).2 rfl
      (by simp [PaymentRoute.getPayment])⟩


/-- C2 (amended): applying a payment set `P` to an invoice with total `T`
always gives `balance = T − Σ P`, with no clamping (the balance is strictly
negative on overpayment); when at least one payment is applied, the sum of
`P` covers `T`, and the invoice is not cancelled, the status becomes `paid`;
a cancelled invoice's status stays `cancelled` no matter what is applied. -/
theorem C2_payment_application (T : ℚ) (s0 : InvoiceStatus)
    (P : List (String × ℚ)) :
    balance (applyAll ⟨T, [], s0⟩ P) = T - (P.map Prod.snd).sum ∧
    (T < (P.map Prod.snd).sum → balance (applyAll ⟨T, [], s0⟩ P) < 0) ∧
    (s0 ≠ InvoiceStatus.cancelled → P ≠ [] → T ≤ (P.map Prod.snd).sum →
      (applyAll ⟨T, [], s0⟩ P).status = InvoiceStatus.paid) ∧
    (s0 = InvoiceStatus.cancelled →
      (applyAll ⟨T, [], s0⟩ P).status = InvoiceStatus.cancelled) := by
  have hbal : balance (applyAll ⟨T, [], s0⟩ P) = T - (P.map Prod.snd).sum := by
    rw [balance_applyAll]
    simp [paidAmount]
  refine ⟨hbal, fun hlt => by rw [hbal]; linarith, ?_, fun hc => applyAll_cancelled P _ hc⟩
  intro hnc hne hle
  rcases List.eq_nil_or_concat P with rfl | ⟨Q, b, rfl⟩
  · exact absurd rfl hne
  · rw [List.concat_eq_append] at hle ⊢
    rw [applyAll_concat]
    apply applyPayment_status_paid
    · exact applyAll_ne_cancelled Q _ hnc
    · rw [balance_applyAll]
      simp only [List.map_append, List.sum_append, List.map_cons, List.map_nil,
        List.sum_cons, List.sum_nil] at hle
      simp [paidAmount]
      linarith

/-- C2 counterexample: the claim's unconditional "`Σ P ≥ T` ⟹ status
becomes `paid`" fails at concrete inputs: a cancelled invoice with total 100
receiving a payment of 100 stays `cancelled`, and an empty payment set on a
zero-total draft invoice leaves it `draft`. -/
theorem C2_counterexample :
    (100 : ℚ) ≤ (([("p1", (100 : ℚ))].map Prod.snd).sum) ∧
    (applyAll ⟨100, [], InvoiceStatus.cancelled⟩ [("p1", 100)]).status ≠
      InvoiceStatus.paid ∧
    (0 : ℚ) ≤ ((([] : List (String × ℚ)).map Prod.snd).sum) ∧
    (applyAll ⟨0, [], InvoiceStatus.draft⟩ []).status ≠ InvoiceStatus.paid := by
  refine ⟨by norm_num, ?_, by norm_num, ?_⟩
  · have h := applyAll_cancelled [("p1", 100)] ⟨100, [], InvoiceStatus.cancelled⟩ rfl
    rw [h]
    decide
  · simp [applyAll]

/-- Witness for C2 at concrete inputs: payments 100 then 35 on an invoice
with total 135 drive the balance to 0 and the status to `paid`; a payment of
150 on a cancelled invoice with total 100 gives balance −50 and leaves it
`cancelled`. -/
theorem C2_payment_application_witness :
    balance (applyAll ⟨135, [], InvoiceStatus.sent⟩ [("a", 100), ("b", 35)]) = 0 ∧
    (applyAll ⟨135, [], InvoiceStatus.sent⟩ [("a", 100), ("b", 35)]).status =
      InvoiceStatus.paid ∧
    balance (applyAll ⟨100, [], InvoiceStatus.cancelled⟩ [("c", 150)]) = -50 ∧
    (applyAll ⟨100, [], InvoiceStatus.cancelled⟩ [("c", 150)]).status =
      InvoiceStatus.cancelled := by
  have h1 := C2_payment_application 135 InvoiceStatus.sent [("a", 100), ("b", 35)]
  have h2 := C2_payment_application 100 InvoiceStatus.cancelled [("c", 150)]
  refine ⟨?_, h1.2.2.1 (by decide) (by simp) (by norm_num), ?_, h2.2.2.2 rfl⟩
  · rw [h1.1]; norm_num
  · rw [h2.1]; norm_num

/-- C6: removing the payment that drove an invoice to `paid` reverts the
status to `sent` once the recomputed balance is positive again; removing a
payment from a cancelled invoice leaves it `cancelled`; and applying a
payment to a cancelled invoice recomputes the balance (it drops by the
amount) but leaves the status `cancelled`. -/
theorem C6_remove_revert_and_cancelled (inv0 : Invoice) (pid qid : String)
    (amt : ℚ) :
    ((applyPayment inv0 pid amt).status = InvoiceStatus.paid →
      0 < balance (removePayment (applyPayment inv0 pid amt) qid) →
      (removePayment (applyPayment inv0 pid amt) qid).status =
        InvoiceStatus.sent) ∧
    (inv0.status = InvoiceStatus.cancelled →
      (removePayment inv0 qid).status = InvoiceStatus.cancelled) ∧
    (inv0.status = InvoiceStatus.cancelled →
      (applyPayment inv0 pid amt).status = InvoiceStatus.cancelled ∧
      balance (applyPayment inv0 pid amt) = balance inv0 - amt) := by
  refine ⟨fun hp hb => removePayment_revert _ qid hp hb,
    fun hc => removePayment_cancelled inv0 qid hc,
    fun hc => ⟨applyPayment_cancelled inv0 pid amt hc, balance_applyPayment inv0 pid amt⟩⟩

/-- Witness for C6 at concrete inputs: the invoice with total 135 and a
prior payment of 100 becomes `paid` on payment "b" of 35; removing "b"
leaves balance 35 > 0 and reverts the status to `sent`; the cancelled
invoice with total 100 stays `cancelled` under removal and under a payment
of 40, whose application leaves balance 60. -/
theorem C6_remove_revert_and_cancelled_witness :
    (removePayment (applyPayment ⟨135, [("a", 100)], InvoiceStatus.sent⟩ "b" 35)
        "b").status = InvoiceStatus.sent ∧
    (removePayment ⟨100, [], InvoiceStatus.cancelled⟩ "x").status =
      InvoiceStatus.cancelled ∧
    (applyPayment ⟨100, [], InvoiceStatus.cancelled⟩ "p" 40).status =
      InvoiceStatus.cancelled ∧
    balance (applyPayment ⟨100, [], InvoiceStatus.cancelled⟩ "p" 40) = 60 := by
  have h1 := C6_remove_revert_and_cancelled ⟨135, [("a", 100)], InvoiceStatus.sent⟩
    "b" "b" 35
  have h2 := C6_remove_revert_and_cancelled ⟨100, [], InvoiceStatus.cancelled⟩
    "p" "x" 40
  have e1 : applyPayment ⟨135, [("a", 100)], InvoiceStatus.sent⟩ "b" 35 =
      ⟨135, [("a", 100), ("b", 35)], InvoiceStatus.paid⟩ := by
    rw [applyPayment, if_pos ⟨by decide, by norm_num [balance, paidAmount]⟩]
    rfl
  have e2 : removePayment ⟨135, [("a", 100), ("b", 35)], InvoiceStatus.paid⟩ "b" =
      ⟨135, [("a", 100)], InvoiceStatus.sent⟩ := by
    rw [removePayment,
      if_pos ⟨rfl, by simp [balance, paidAmount, List.filter_cons]; norm_num⟩]
    rfl
  refine ⟨h1.1 ?_ ?_, h2.2.1 rfl, (h2.2.2 rfl).1, ?_⟩
  · rw [e1]
  · rw [e1, e2]
    norm_num [balance, paidAmount]
  · rw [(h2.2.2 rfl).2]
    norm_num [balance, paidAmount]

theorem unitDays_pos (f : Frequency) : 0 < unitDays f := by
  cases f <;> decide

theorem lt_catchUp (st next now : ℕ) (hst : 0 < st) : now < catchUp st next now := by
  rw [catchUp]
  split
  · exact lt_catchUp st (next + st) now hst
  · next h => omega
termination_by now + 1 - next
decreasing_by omega

theorem catchUp_form (st next now : ℕ) (hst : 0 < st) (h : next ≤ now) :
    ∃ k, catchUp st next now = next + (k + 1) * st ∧ next + k * st ≤ now := by
  rw [catchUp, dif_pos ⟨hst, h⟩]
  by_cases h2 : next + st ≤ now
  · obtain ⟨k, e, b⟩ := catchUp_form st (next + st) now hst h2
    refine ⟨k + 1, ?_, ?_⟩
    · rw [e]; ring
    · calc next + (k + 1) * st = next + st + k * st := by ring
        _ ≤ now := b
  · rw [catchUp, dif_neg (by omega)]
    exact ⟨0, by ring, by simpa using h⟩
termination_by now + 1 - next
decreasing_by omega

/-- C7 (confirmed on the spec model): a due schedule that has fallen more
than one interval behind `now` produces, in one advancement run, exactly one
catch-up invoice; the new `nextInvoiceDate` is obtained by repeatedly adding
the step (`interval` units of `frequency`) to the previous
`nextInvoiceDate` until it is strictly in the future (so its predecessor
occurrence is not in the future); and a second run at the same instant
changes nothing — neither the invoice count nor the schedule. -/
theorem C7_recurring_advancement (s : Schedule) (now n : ℕ)
    (hint : 0 < s.interval)
    (hdue : isDue s now = true)
    (hgap : s.nextInvoiceDate + stepLen s ≤ now) :
    (runAdvance s now n).1 = n + 1 ∧
    now < (runAdvance s now n).2.nextInvoiceDate ∧
    (∃ k, (runAdvance s now n).2.nextInvoiceDate =
        s.nextInvoiceDate + (k + 1) * stepLen s ∧
      s.nextInvoiceDate + k * stepLen s ≤ now) ∧
    runAdvance (runAdvance s now n).2 now (runAdvance s now n).1 =
      ((runAdvance s now n).1, (runAdvance s now n).2) := by
  have hst : 0 < stepLen s := Nat.mul_pos hint (unitDays_pos s.frequency)
  have hle : s.nextInvoiceDate ≤ now := by omega
  have hrun : runAdvance s now n =
      (n + 1, { s with nextInvoiceDate := catchUp (stepLen s) s.nextInvoiceDate now }) := by
    rw [runAdvance, if_pos hdue]
  have hlt := lt_catchUp (stepLen s) s.nextInvoiceDate now hst
  refine ⟨by rw [hrun], by rw [hrun]; exact hlt, ?_, ?_⟩
  · rw [hrun]
    exact catchUp_form (stepLen s) s.nextInvoiceDate now hst hle
  · rw [hrun]
    have hnotdue : isDue { s with nextInvoiceDate := catchUp (stepLen s) s.nextInvoiceDate now } now = false := by
      simp [isDue]
      intro _ hc
      exact absurd hc (by omega)
    rw [runAdvance, if_neg (by simp [hnotdue])]

/-- Witness for C7 at a concrete schedule: weekly with interval 1,
`nextInvoiceDate = 0`, advanced at `now = 25` (more than three intervals
behind): one run creates exactly one catch-up invoice and moves the date
past `now`; a second run at the same instant changes nothing. -/
theorem C7_recurring_advancement_witness :
    (runAdvance ⟨Frequency.weekly, 1, 0, none, true⟩ 25 0).1 = 0 + 1 ∧
    25 < (runAdvance ⟨Frequency.weekly, 1, 0, none, true⟩ 25 0).2.nextInvoiceDate ∧
    runAdvance (runAdvance ⟨Frequency.weekly, 1, 0, none, true⟩ 25 0).2 25
        (runAdvance ⟨Frequency.weekly, 1, 0, none, true⟩ 25 0).1 =
      ((runAdvance ⟨Frequency.weekly, 1, 0, none, true⟩ 25 0).1,
        (runAdvance ⟨Frequency.weekly, 1, 0, none, true⟩ 25 0).2) := by
  have h := C7_recurring_advancement ⟨Frequency.weekly, 1, 0, none, true⟩ 25 0
    (by decide) (by decide) (by decide)
  exact ⟨h.1, h.2.1, h.2.2.2⟩

/-- C8 (amended): the read-time status is `overdue` exactly when the current
date is after `dueDate`, the balance is positive, and the stored status is
neither `cancelled` nor `paid` — or when the stored status is itself already
`overdue`, which is reported as-is; in particular a past-due invoice with
balance 35 and stored status `sent` reads as `overdue`. -/
theorem C8_read_time_overdue (status : InvoiceStatus) (dueDate : ℕ) (bal : ℚ)
    (now : ℕ) :
    (readStatus status dueDate bal now = InvoiceStatus.overdue ↔
      ((dueDate < now ∧ 0 < bal ∧ status ≠ InvoiceStatus.cancelled ∧
          status ≠ InvoiceStatus.paid) ∨ status = InvoiceStatus.overdue)) ∧
    (dueDate < now → 0 < bal → status = InvoiceStatus.sent →
      readStatus status dueDate bal now = InvoiceStatus.overdue) := by
  have hiff : isOverdueAt status dueDate bal now = true ↔
      (dueDate < now ∧ 0 < bal ∧ status ≠ InvoiceStatus.cancelled ∧
        status ≠ InvoiceStatus.paid) := by
    simp [isOverdueAt, and_assoc]
  constructor
  · by_cases h : isOverdueAt status dueDate bal now = true
    · rw [readStatus, if_pos h]
      simp [hiff.mp h]
    · rw [readStatus, if_neg h]
      rw [hiff] at h
      constructor
      · intro hs
        exact Or.inr hs
      · rintro (hc | hs)
        · exact absurd hc h
        · exact hs
  · intro h1 h2 h3
    rw [readStatus, if_pos (hiff.mpr ⟨h1, h2, by rw [h3]; exact fun hc => InvoiceStatus.noConfusion hc, by rw [h3]; exact fun hc => InvoiceStatus.noConfusion hc⟩)]

/-- C8 counterexample: an invoice whose stored status is `overdue` but whose
balance is 0 (dueDate 0, read at time 10) is still reported `overdue` at
read time, although the claim's condition requires balance > 0 — so the
claimed "exactly when" biconditional fails at this input. -/
theorem C8_counterexample :
    readStatus InvoiceStatus.overdue 0 0 10 = InvoiceStatus.overdue ∧
    ¬((0 : ℕ) < 10 ∧ (0 : ℚ) < 0 ∧
        InvoiceStatus.overdue ≠ InvoiceStatus.cancelled ∧
        InvoiceStatus.overdue ≠ InvoiceStatus.paid) := by
  constructor
  · norm_num [readStatus, isOverdueAt]
  · intro h
    exact absurd h.2.1 (by norm_num)

/-- Witness for C8 at the concrete scenario: dueDate 5 read at time 10,
balance 35, stored status `sent` — reported `overdue`. -/
theorem C8_read_time_overdue_witness :
    readStatus InvoiceStatus.sent 5 35 10 = InvoiceStatus.overdue :=
  (C8_read_time_overdue InvoiceStatus.sent 5 35 10).2 (by norm_num) (by norm_num) rfl

theorem getPayment_filter_ne (id : String) (st : PaymentRoute.Store) :
    PaymentRoute.getPayment id (List.filter (fun q => !(q.id == id)) st) = none := by
  induction st with
  | nil => rfl
  | cons p st ih =>
    rw [List.filter_cons]
    by_cases h : p.id = id
    · simp [h, ih]
    · simp [PaymentRoute.getPayment, List.find?_cons, h, ih]

/-- C3 (amended): the payment `PUT` is delete-old-then-create-new, but it is
not atomic from the caller's perspective — in every execution where the
delete succeeded and the create then failed, the handler returns the generic
`UPDATE_ERROR` (500) response, identical to the response of a failure in
which nothing was mutated (a read fault), and the store has lost the old
payment with no replacement: no distinct reconciliation error is surfaced,
though the failure is not silent. -/
theorem C3_put_partial_failure (token : Option String) (id : String)
    (d : PaymentRoute.PaymentFormData) (freshId : String) (now : ℕ)
    (st : PaymentRoute.Store) (p : PaymentRoute.Payment)
    (htok : PaymentRoute.tokenPresent token = true) (hid : id ≠ "")
    (hex : PaymentRoute.getPayment id st = some p) :
    PaymentRoute.PUT token id (some d) ⟨false, false, true⟩ freshId now st =
      (PaymentRoute.errorResponse "UPDATE_ERROR" 500,
        List.filter (fun q => !(q.id == id)) st,
        [PaymentRoute.Effect.readPayment id, PaymentRoute.Effect.deleteRow id,
          PaymentRoute.Effect.createRow]) ∧
    PaymentRoute.getPayment id
      (PaymentRoute.PUT token id (some d) ⟨false, false, true⟩ freshId now st).2.1 =
      none ∧
    (PaymentRoute.PUT token id (some d) ⟨false, false, true⟩ freshId now st).1 =
      (PaymentRoute.PUT token id (some d) ⟨true, false, false⟩ freshId now st).1 := by
  have h1 : PaymentRoute.PUT token id (some d) ⟨false, false, true⟩ freshId now st =
      (PaymentRoute.errorResponse "UPDATE_ERROR" 500,
        List.filter (fun q => !(q.id == id)) st,
        [PaymentRoute.Effect.readPayment id, PaymentRoute.Effect.deleteRow id,
          PaymentRoute.Effect.createRow]) := by
    simp [PaymentRoute.PUT, htok, hid, hex, PaymentRoute.deletePayment]
  have h2 : PaymentRoute.PUT token id (some d) ⟨true, false, false⟩ freshId now st =
      (PaymentRoute.errorResponse "UPDATE_ERROR" 500, st,
        [PaymentRoute.Effect.readPayment id]) := by
    simp [PaymentRoute.PUT, htok, hid]
  refine ⟨h1, ?_, ?_⟩
  · rw [h1]
    exact getPayment_filter_ne id st
  · rw [h1, h2]

/-- C3 counterexample: at a concrete request against a one-payment store,
the delete-succeeded/create-failed execution produces a response that is
*equal* to the response of an execution in which nothing was mutated at all
(the initial read fault) — the generic `UPDATE_ERROR` — while the store has
lost payment `p1`; so no distinct reconciliation error is surfaced, refuting
the claim. -/
theorem C3_counterexample :
    (PaymentRoute.PUT (some "tok") "p1"
        (some ⟨"inv1", 60, 2, PaymentMethod.cash, none⟩) ⟨false, false, true⟩
        "p2" 9 [⟨"p1", "inv1", 50, 1, PaymentMethod.cash, none, 0⟩]).1 =
      (PaymentRoute.PUT (some "tok") "p1"
        (some ⟨"inv1", 60, 2, PaymentMethod.cash, none⟩) ⟨true, false, false⟩
        "p2" 9 [⟨"p1", "inv1", 50, 1, PaymentMethod.cash, none, 0⟩]).1 ∧
    (PaymentRoute.PUT (some "tok") "p1"
        (some ⟨"inv1", 60, 2, PaymentMethod.cash, none⟩) ⟨false, false, true⟩
        "p2" 9 [⟨"p1", "inv1", 50, 1, PaymentMethod.cash, none, 0⟩]).2.1 = [] := by
  constructor <;> rfl

/-- Witness for C3 at the same concrete request: the full amended statement
instantiated — the generic `UPDATE_ERROR` response, the filtered (now empty)
store, and the three attempted store operations. -/
theorem C3_put_partial_failure_witness :
    PaymentRoute.PUT (some "tok") "p1"
        (some ⟨"inv1", 60, 2, PaymentMethod.cash, none⟩) ⟨false, false, true⟩
        "p2" 9 [⟨"p1", "inv1", 50, 1, PaymentMethod.cash, none, 0⟩] =
      (PaymentRoute.errorResponse "UPDATE_ERROR" 500,
        List.filter (fun q => !(q.id == "p1"))
          [⟨"p1", "inv1", 50, 1, PaymentMethod.cash, none, 0⟩],
        [PaymentRoute.Effect.readPayment "p1", PaymentRoute.Effect.deleteRow "p1",
          PaymentRoute.Effect.createRow]) :=
  (C3_put_partial_failure (some "tok") "p1"
    ⟨"inv1", 60, 2, PaymentMethod.cash, none⟩ "p2" 9
    [⟨"p1", "inv1", 50, 1, PaymentMethod.cash, none, 0⟩]
    ⟨"p1", "inv1", 50, 1, PaymentMethod.cash, none, 0⟩ rfl (by decide) rfl).1

/-- C4: at a concrete request, the `PUT` handler recreates the payment with
the request body's `invoiceId`: the store held payment `p1` referencing
`inv1`, and after a successful update naming `inv2` the store holds only a
payment referencing `inv2` — the foreign key changed, so it is not immutable
(the repository's own `UpdatePaymentData` type omits `invoiceId` from
updatable fields, but the handler builds the new payment from
`result.data.invoiceId`). -/
theorem C4_put_changes_invoiceId :
    (PaymentRoute.PUT (some "tok") "p1"
        (some ⟨"inv2", 50, 1, PaymentMethod.cash, none⟩) PaymentRoute.noFaults
        "p2" 9 [⟨"p1", "inv1", 50, 1, PaymentMethod.cash, none, 0⟩]).1.success =
      true ∧
    (PaymentRoute.PUT (some "tok") "p1"
        (some ⟨"inv2", 50, 1, PaymentMethod.cash, none⟩) PaymentRoute.noFaults
        "p2" 9 [⟨"p1", "inv1", 50, 1, PaymentMethod.cash, none, 0⟩]).2.1 =
      [⟨"p2", "inv2", 50, 1, PaymentMethod.cash, none, 9⟩] := by
  constructor <;> rfl
